import Mathlib

/-!
Verification of the core of the `crypto-data-collection` repository:
the symbol mapper (`symbol_mapping.py`), the error-handling policy
(`error_handler.py`), the Binance realtime adapter
(`binance_realtime_collector.py`), and the base collector's health
bookkeeping (`base_collector.py`).

Python `dict`s are embedded as association lists in insertion order
(first binding wins on lookup, `d[k] = v` overwrites in place), Python
floats as rationals, and fallible float parsing as `Except`.
-/

namespace SymbolMapping

/-- Python dict lookup `d.get(k)` on an association list: first binding wins
(keys are unique in a Python dict, so first = only). -/
def dget {α : Type} (t : List (String × α)) (k : String) : Option α :=
  match t with
  | [] => none
  | (k', v) :: rest => if k = k' then some v else dget rest k

/-- Python dict assignment `d[k] = v`: overwrite the binding in place if the
key is present, otherwise append it. -/
def dput {α : Type} (t : List (String × α)) (k : String) (v : α) : List (String × α) :=
  match t with
  | [] => [(k, v)]
  | (k', v') :: rest => if k = k' then (k, v) :: rest else (k', v') :: dput rest k v

/-- `SymbolMapper.STANDARD_SYMBOLS`. -/
def STANDARD_SYMBOLS : List String :=
  ["BTCUSDT", "BTCUSDC", "BTCUSD", "BTCTUSD", "BTCFDUSD", "BTCGUSD"]

/-- `SymbolMapper.EXCHANGE_SYMBOLS["binance"]`, in source order. -/
def binanceSymbols : List (String × String) :=
  [("BTCUSDT", "BTCUSDT"), ("BTCUSDC", "BTCUSDC"), ("BTCUSD", "BTCUSDT"),
   ("BTCTUSD", "BTCTUSD"), ("BTCFDUSD", "BTCFDUSD"), ("BTCGUSD", "BTCUSDT")]

/-- `SymbolMapper.EXCHANGE_SYMBOLS["bybit"]`. -/
def bybitSymbols : List (String × String) :=
  [("BTCUSDT", "BTCUSDT"), ("BTCUSDC", "BTCUSDC"), ("BTCUSD", "BTCUSDT"),
   ("BTCTUSD", "BTCTUSD"), ("BTCFDUSD", "BTCUSDT"), ("BTCGUSD", "BTCUSDT")]

/-- `SymbolMapper.EXCHANGE_SYMBOLS["kraken"]`. -/
def krakenSymbols : List (String × String) :=
  [("BTCUSDT", "XBT/USDT"), ("BTCUSDC", "XBT/USDC"), ("BTCUSD", "XBT/USD"),
   ("BTCTUSD", "XBT/USD"), ("BTCFDUSD", "XBT/USD"), ("BTCGUSD", "XBT/USD")]

/-- `SymbolMapper.EXCHANGE_SYMBOLS["okx"]`. -/
def okxSymbols : List (String × String) :=
  [("BTCUSDT", "BTC-USDT"), ("BTCUSDC", "BTC-USDC"), ("BTCUSD", "BTC-USDT"),
   ("BTCTUSD", "BTC-USDT"), ("BTCFDUSD", "BTC-USDT"), ("BTCGUSD", "BTC-USDT")]

/-- `SymbolMapper.EXCHANGE_SYMBOLS["gate"]`. -/
def gateSymbols : List (String × String) :=
  [("BTCUSDT", "BTC_USDT"), ("BTCUSDC", "BTC_USDC"), ("BTCUSD", "BTC_USD1"),
   ("BTCTUSD", "BTC_USDT"), ("BTCFDUSD", "BTC_USDT"), ("BTCGUSD", "BTC_GUSD")]

/-- `SymbolMapper.EXCHANGE_SYMBOLS`. -/
def EXCHANGE_SYMBOLS : List (String × List (String × String)) :=
  [("binance", binanceSymbols), ("bybit", bybitSymbols), ("kraken", krakenSymbols),
   ("okx", okxSymbols), ("gate", gateSymbols)]

/-- The Python dict comprehension `{v: k for k, v in d.items()}`: pairs are
inserted in iteration (= insertion) order, so when several keys share one
value the LAST such key wins. -/
def reverseDict (t : List (String × String)) : List (String × String) :=
  t.foldl (fun acc kv => dput acc kv.2 kv.1) []

/-- `SymbolMapper.REVERSE_MAPPINGS`: per-exchange reversed tables. -/
def REVERSE_MAPPINGS : List (String × List (String × String)) :=
  EXCHANGE_SYMBOLS.map (fun p => (p.1, reverseDict p.2))

/-- `SymbolMapper.get_exchange_symbols`: unknown exchange passes the whole
list through; a symbol missing from the exchange table passes through. -/
def get_exchange_symbols (exchange : String) (standard_symbols : List String) : List String :=
  match dget EXCHANGE_SYMBOLS exchange with
  | none => standard_symbols
  | some table =>
      standard_symbols.map (fun s =>
        match dget table s with
        | some v => v
        | none => s)

/-- `SymbolMapper.get_standard_symbol`: unknown exchange or unmapped native
symbol passes through. -/
def get_standard_symbol (exchange : String) (exchange_symbol : String) : String :=
  match dget REVERSE_MAPPINGS exchange with
  | none => exchange_symbol
  | some table => (dget table exchange_symbol).getD exchange_symbol

/-- Forward translation of a single symbol, as the collectors use it. -/
def toNative (exchange s : String) : String :=
  (get_exchange_symbols exchange [s]).headD s

/-- True when `x` appears neither in the forward nor in the reverse table of
`exchange` (vacuously true when the exchange itself is unknown). -/
def hasNoEntry (exchange x : String) : Bool :=
  match dget EXCHANGE_SYMBOLS exchange, dget REVERSE_MAPPINGS exchange with
  | some fwd, some rev => (dget fwd x).isNone && (dget rev x).isNone
  | _, _ => true

end SymbolMapping

namespace ErrorPolicy

open SymbolMapping (dget dput)

/-- Constructor arguments of `ErrorHandler.__init__`, with the source's
defaults (`max_retries=3, base_delay=1.0, max_delay=60.0, backoff_factor=2.0`). -/
structure EHConfig where
  max_retries : Nat
  base_delay : ℚ
  max_delay : ℚ
  backoff_factor : ℚ

/-- The defaults of `ErrorHandler.__init__` (also used by the module-level
`ConnectionErrorHandler()` singleton). -/
def defaultConfig : EHConfig :=
  { max_retries := 3, base_delay := 1, max_delay := 60, backoff_factor := 2 }

/-- The `non_retryable_errors` list in `ErrorHandler.should_retry`. -/
def non_retryable_errors : List String :=
  ["ValueError", "TypeError", "AttributeError", "KeyError", "ImportError",
   "ModuleNotFoundError"]

/-- `self.connection_errors` of `ConnectionErrorHandler.__init__`. -/
def connection_errors : List String :=
  ["ConnectionError", "ConnectionRefusedError", "ConnectionResetError",
   "TimeoutError", "asyncio.TimeoutError"]

/-- `ErrorHandler.should_retry`, on the name of the error's type. -/
def should_retry (cfg : EHConfig) (errorName : String) (attempt : Nat) : Bool :=
  if attempt > cfg.max_retries then false
  else if errorName ∈ non_retryable_errors then false
  else if attempt > 5 then false
  else true

/-- `ConnectionErrorHandler.should_retry`: connection-class errors get
double the retry budget, everything else defers to the base class. -/
def conn_should_retry (cfg : EHConfig) (errorName : String) (attempt : Nat) : Bool :=
  if errorName ∈ connection_errors then attempt ≤ cfg.max_retries * 2
  else should_retry cfg errorName attempt

/-- The pre-jitter delay of `ErrorHandler.get_retry_delay`:
`min(base_delay * backoff_factor**(attempt-1), max_delay)`. -/
def pre_delay (cfg : EHConfig) (attempt : Nat) : ℚ :=
  min (cfg.base_delay * cfg.backoff_factor ^ (attempt - 1)) cfg.max_delay

/-- Lower end of the jitter-fraction range `random.uniform(0.1, 0.5)` in
`ErrorHandler.get_retry_delay`. -/
def jitter_frac_lo : ℚ := 1 / 10

/-- Upper end of the jitter-fraction range in `ErrorHandler.get_retry_delay`. -/
def jitter_frac_hi : ℚ := 1 / 2

/-- `ErrorHandler.get_retry_delay` at a given jitter-fraction draw `j`
(the code draws `j` uniformly from `[jitter_frac_lo, jitter_frac_hi]` and
returns `delay + j * delay`). -/
def get_retry_delay (cfg : EHConfig) (attempt : Nat) (j : ℚ) : ℚ :=
  pre_delay cfg attempt + j * pre_delay cfg attempt

/-- Expected value of `ErrorHandler.get_retry_delay` over the uniform
jitter draw. -/
def expected_retry_delay (cfg : EHConfig) (attempt : Nat) : ℚ :=
  pre_delay cfg attempt + (jitter_frac_lo + jitter_frac_hi) / 2 * pre_delay cfg attempt

/-- The pre-jitter delay of `ConnectionErrorHandler.get_retry_delay` for a
connection-class error: `min(base_delay * 2 * factor**(attempt-1), max_delay * 2)`. -/
def conn_pre_delay (cfg : EHConfig) (attempt : Nat) : ℚ :=
  min (cfg.base_delay * 2 * cfg.backoff_factor ^ (attempt - 1)) (cfg.max_delay * 2)

/-- Lower end of the absolute jitter range `random.uniform(0.5, 2.0)` in
`ConnectionErrorHandler.get_retry_delay`. -/
def conn_jitter_lo : ℚ := 1 / 2

/-- Upper end of the absolute jitter range in
`ConnectionErrorHandler.get_retry_delay`. -/
def conn_jitter_hi : ℚ := 2

/-- `ConnectionErrorHandler.get_retry_delay` at an absolute jitter draw `j`
from `[conn_jitter_lo, conn_jitter_hi]` for connection-class errors; other
errors defer to the base class (with `j` then a jitter fraction). -/
def conn_get_retry_delay (cfg : EHConfig) (errorName : String) (attempt : Nat) (j : ℚ) : ℚ :=
  if errorName ∈ connection_errors then conn_pre_delay cfg attempt + j
  else get_retry_delay cfg attempt j

/-- Expected value of `ConnectionErrorHandler.get_retry_delay` over the
uniform jitter draw, for a connection-class error. -/
def conn_expected_retry_delay (cfg : EHConfig) (attempt : Nat) : ℚ :=
  conn_pre_delay cfg attempt + (conn_jitter_lo + conn_jitter_hi) / 2

/-- Mutable state of an `ErrorHandler` instance: its configuration, the
`error_counts` dict, and the `recovery_handlers` dict.  A registered handler
is modelled by the boolean it reports when invoked (a handler that raises is
caught and treated as not-recovered, i.e. `false`). -/
structure EHState where
  cfg : EHConfig
  error_counts : List (String × Nat)
  recovery_handlers : List (String × List Bool)

/-- `ErrorHandler.handle_error`: increments `error_counts[key]`, gives up
when `should_retry` fails, otherwise sleeps and polls the recovery handlers
registered for the key, returning `True` at the first success.  The error
count is never reset. -/
def handle_error (st : EHState) (collector errorType : String) : Bool × EHState :=
  let key := collector ++ "_" ++ errorType
  let cnt := (dget st.error_counts key).getD 0 + 1
  let st' : EHState := { st with error_counts := dput st.error_counts key cnt }
  if ¬ should_retry st.cfg errorType cnt then (false, st')
  else (((dget st.recovery_handlers key).getD []).any id, st')

/-- `ErrorHandler.add_recovery_handler`: appends the handler under the key
`f"{collector}_{error_type}"`. -/
def add_recovery_handler (st : EHState) (error_type collector : String) (handler : Bool) : EHState :=
  let key := collector ++ "_" ++ error_type
  let hs := (dget st.recovery_handlers key).getD [] ++ [handler]
  { st with recovery_handlers := dput st.recovery_handlers key hs }

/-- A fresh handler (default configuration, no errors recorded) with one
always-succeeding recovery handler registered for collector `"coll"` and
error class `"ConnectionError"`. -/
def exampleState : EHState :=
  add_recovery_handler
    { cfg := defaultConfig, error_counts := [], recovery_handlers := [] }
    "ConnectionError" "coll" true

end ErrorPolicy

namespace BinanceAdapter

/-- A JSON field as the adapter consumes it through
`float(m.get(key, 0) or 0)`: absent (or falsy, e.g. `""`/`None`/`0`) fields
default to `0`, a numeric value parses to a rational, and a value `float()`
cannot parse raises `ValueError`. -/
inductive JNum where
  | missing : JNum
  | num (x : ℚ) : JNum
  | bad : JNum
deriving DecidableEq

/-- Evaluate `float(field or 0)`: `missing` yields `0`, `bad` raises. -/
def pyFloat : JNum → Except Unit ℚ
  | .missing => .ok 0
  | .num x => .ok x
  | .bad => .error ()

/-- Whether an `Except` computation succeeded (no exception raised). -/
def exceptOk {α : Type} : Except Unit α → Bool
  | .ok _ => true
  | .error _ => false

/-- Python truthiness test `not symbol` on `m.get("s")`: `None` and the
empty string are falsy. -/
def falsyStr : Option String → Bool
  | none => true
  | some s => s.isEmpty

/-- Python `x or None` on a float: `0.0` becomes `None`. -/
def orNone (x : ℚ) : Option ℚ :=
  if x = 0 then none else some x

/-- The `models.MarketData` fields the ticker handler populates. -/
structure MarketData where
  symbol : String
  price : ℚ
  volume : ℚ
  bid : Option ℚ
  ask : Option ℚ
  bid_size : Option ℚ
  ask_size : Option ℚ
  high_24h : Option ℚ
  low_24h : Option ℚ
deriving DecidableEq

/-- The `models.VolumeLiquidity` fields the ticker handler populates. -/
structure VolumeLiquidity where
  symbol : String
  volume_24h : ℚ
  liquidity : Option ℚ
deriving DecidableEq

/-- The `models.TickPrice` fields the trade handler populates. -/
structure TickPrice where
  symbol : String
  price : ℚ
  volume : ℚ
  side : String
deriving DecidableEq

/-- The `models.OrderBookData` fields the depth handler populates. -/
structure OrderBookData where
  symbol : String
  bids : List (ℚ × ℚ)
  asks : List (ℚ × ℚ)
deriving DecidableEq

/-- A canonical event stored through `SimpleMongoDBCollector.store_message`,
tagged as in `models.DataType`. -/
inductive Event where
  | market (d : MarketData) : Event
  | volume (d : VolumeLiquidity) : Event
  | tick (d : TickPrice) : Event
  | book (d : OrderBookData) : Event
deriving DecidableEq

/-- A `24hrTicker` frame, restricted to the fields
`BinanceRealtimeCollector._handle_ticker` reads. -/
structure TickerMsg where
  s : Option String
  c : JNum
  v : JNum
  q : JNum
  b : JNum
  a : JNum
  bigB : JNum
  bigA : JNum
  h : JNum
  l : JNum
deriving DecidableEq

/-- The nine float conversions at the top of `_handle_ticker`, in source
order; the first `ValueError` aborts the frame. -/
structure TickerFields where
  price : ℚ
  vol24 : ℚ
  quote_vol24 : ℚ
  bid : ℚ
  ask : ℚ
  bid_size : ℚ
  ask_size : ℚ
  high24 : ℚ
  low24 : ℚ
deriving DecidableEq

/-- Sequential evaluation of the `float(...)` lines of `_handle_ticker`. -/
def tickerFields (m : TickerMsg) : Except Unit TickerFields := do
  let price ← pyFloat m.c
  let vol24 ← pyFloat m.v
  let quote_vol24 ← pyFloat m.q
  let bid ← pyFloat m.b
  let ask ← pyFloat m.a
  let bid_size ← pyFloat m.bigB
  let ask_size ← pyFloat m.bigA
  let high24 ← pyFloat m.h
  let low24 ← pyFloat m.l
  pure ⟨price, vol24, quote_vol24, bid, ask, bid_size, ask_size, high24, low24⟩

/-- The parsed last price of a ticker frame (`0` when parsing failed). -/
def tickerPrice (m : TickerMsg) : ℚ :=
  match tickerFields m with
  | .ok f => f.price
  | .error _ => 0

/-- `BinanceRealtimeCollector._handle_ticker`: returns the emitted events
and the deltas to `stats["stored"]` and `stats["errors"]`.  A parse
exception increments the error counter once; a frame with a falsy symbol or
non-positive price is silently dropped (`return`, no counter change);
otherwise one `MarketData` and one `VolumeLiquidity` event are stored. -/
def handle_ticker (m : TickerMsg) : List Event × Nat × Nat :=
  match tickerFields m with
  | .error _ => ([], 0, 1)
  | .ok f =>
      if falsyStr m.s || f.price ≤ 0 then ([], 0, 0)
      else
        let sym := m.s.getD ""
        ([.market ⟨sym, f.price, f.vol24, orNone f.bid, orNone f.ask,
            some f.bid_size, some f.ask_size, orNone f.high24, orNone f.low24⟩,
          .volume ⟨sym, f.vol24, some f.quote_vol24⟩], 2, 0)

/-- A `trade` frame, restricted to the fields
`BinanceRealtimeCollector._handle_trade` reads. -/
structure TradeMsg where
  s : Option String
  p : JNum
  q : JNum
  m : Bool
deriving DecidableEq

/-- `BinanceRealtimeCollector._handle_trade`: parse exceptions increment the
error counter once; a falsy symbol or non-positive price/quantity drops the
frame silently; `m=true` (buyer is maker) inverts to taker side `"sell"`. -/
def handle_trade (t : TradeMsg) : List Event × Nat × Nat :=
  match pyFloat t.p, pyFloat t.q with
  | .ok price, .ok qty =>
      if falsyStr t.s || price ≤ 0 || qty ≤ 0 then ([], 0, 0)
      else ([.tick ⟨t.s.getD "", price, qty, if t.m then "sell" else "buy"⟩], 1, 0)
  | _, _ => ([], 0, 1)

/-- A depth frame, restricted to the fields
`BinanceRealtimeCollector._handle_depth` reads: levels come either from
`"b"`/`"a"` or, when those are absent or empty, from `"bids"`/`"asks"`. -/
structure DepthMsg where
  s : Option String
  b : Option (List (JNum × JNum))
  bids : Option (List (JNum × JNum))
  a : Option (List (JNum × JNum))
  asks : Option (List (JNum × JNum))
deriving DecidableEq

/-- `m.get("b", []) or m.get("bids", [])`: an absent or empty first list
falls back to the second. -/
def rawLevels (primary alt : Option (List (JNum × JNum))) : List (JNum × JNum) :=
  let l1 := primary.getD []
  if l1.isEmpty then alt.getD [] else l1

/-- The per-level parse loop of `_handle_depth`: a level whose price or
quantity fails `float()` is skipped (`continue`), the rest keep their
frame order. -/
def parseLevels (raw : List (JNum × JNum)) : List (ℚ × ℚ) :=
  raw.filterMap (fun pq =>
    match pyFloat pq.1, pyFloat pq.2 with
    | .ok p, .ok q => some (p, q)
    | _, _ => none)

/-- The parsed bid levels of a depth frame. -/
def depthBids (m : DepthMsg) : List (ℚ × ℚ) := parseLevels (rawLevels m.b m.bids)

/-- The parsed ask levels of a depth frame. -/
def depthAsks (m : DepthMsg) : List (ℚ × ℚ) := parseLevels (rawLevels m.a m.asks)

/-- The symbol `_handle_depth` uses: a frame without one defaults to
`"BTCUSDT"`. -/
def depthSymbol (m : DepthMsg) : String :=
  if falsyStr m.s then "BTCUSDT" else m.s.getD ""

/-- `BinanceRealtimeCollector._handle_depth`: parses the levels, truncates
both sides to the first 20 levels in frame order (`bids[:20]`, `asks[:20]`,
no sorting), and drops frames in which both sides came out empty. -/
def handle_depth (m : DepthMsg) : List Event × Nat × Nat :=
  let bids := depthBids m
  let asks := depthAsks m
  if bids.isEmpty && asks.isEmpty then ([], 0, 0)
  else ([.book ⟨depthSymbol m, bids.take 20, asks.take 20⟩], 1, 0)

/-- Bid levels of the single emitted order-book event (empty otherwise). -/
def bookBids (evs : List Event) : List (ℚ × ℚ) :=
  match evs with
  | [.book d] => d.bids
  | _ => []

/-- Whether a level list is sorted by non-increasing price. -/
def descByPrice : List (ℚ × ℚ) → Bool
  | [] => true
  | [_] => true
  | x :: y :: rest => decide (y.1 ≤ x.1) && descByPrice (y :: rest)

/-- A ticker frame carrying last price 50000 and 24h volume 120 but no
symbol field and no bid/ask fields. -/
def tickerNoSymbol : TickerMsg :=
  { s := none, c := .num 50000, v := .num 120, q := .missing,
    b := .missing, a := .missing, bigB := .missing, bigA := .missing,
    h := .missing, l := .missing }

/-- The same ticker frame with the symbol `"BTCUSDT"` present. -/
def tickerNoBidAsk : TickerMsg :=
  { tickerNoSymbol with s := some "BTCUSDT" }

/-- A depth frame with 21 bid levels at ascending prices 1..21 and 21 ask
levels at descending prices 21..1, each of size 1 — more levels than the
configured depth of 20, and not in canonical book order. -/
def depth21Msg : DepthMsg :=
  { s := some "BTCUSDT",
    b := some ((List.range 21).map (fun i => (JNum.num ((i + 1 : ℕ) : ℚ), JNum.num 1))),
    bids := none,
    a := some ((List.range 21).map (fun i => (JNum.num ((21 - i : ℕ) : ℚ), JNum.num 1))),
    asks := none }

/-- The receive loop of `BinanceRealtimeCollector.collect`: frames arrive
tagged with the wall-clock time at which the `while time.time() - start <
duration_seconds` guard is evaluated for them; the loop handles frames
while the guard holds and exits at the first failure. -/
def collectProcessed (startT duration : ℤ) : List (ℤ × TickerMsg) → List TickerMsg
  | [] => []
  | (t, m) :: rest =>
      if t - startT < duration then m :: collectProcessed startT duration rest
      else []

end BinanceAdapter

namespace BaseColl

/-- `interfaces.CollectorStatus`. -/
inductive CStatus where
  | stopped | starting | running | stopping | error | completed
deriving DecidableEq

/-- The `_stats` dict of `BaseCollector`, with times as integer seconds. -/
structure BCStats where
  messages_received : Nat
  messages_stored : Nat
  errors : Nat
  consecutive_errors : Nat
  start_time : Option ℤ
  last_activity : Option ℤ
deriving DecidableEq

/-- The mutable fields of a `BaseCollector` that its health logic touches:
status, stats, `_last_health_check`, the `_is_healthy` flag, whether the
collector type is `REALTIME`, and `_health_check_interval` (30s). -/
structure BCState where
  status : CStatus
  stats : BCStats
  last_health_check : Option ℤ
  is_healthy : Bool
  realtime : Bool
  health_check_interval : ℤ
deriving DecidableEq

/-- `BaseCollector.is_healthy` evaluated at wall-clock `now`: each of the
three staleness/error checks can only clear `_is_healthy`, never set it,
and the method returns the (possibly updated) flag. -/
def isHealthyCheck (now : ℤ) (s : BCState) : Bool × BCState :=
  let f1 :=
    match s.last_health_check with
    | some t => if now - t > s.health_check_interval * 2 then false else s.is_healthy
    | none => s.is_healthy
  let f2 := if s.stats.consecutive_errors > 10 then false else f1
  let f3 :=
    if s.realtime then
      match s.stats.last_activity with
      | some t => if now - t > 300 then false else f2
      | none => f2
    else f2
  (f3, { s with is_healthy := f3 })

/-- `BaseCollector.record_message`: bumps the message counters (a stored
message resets `consecutive_errors` to 0), stamps `last_activity` and
`_last_health_check`, and leaves `_is_healthy` untouched. -/
def record_message (now : ℤ) (stored : Bool) (s : BCState) : BCState :=
  let st := s.stats
  let st :=
    if stored then
      { st with messages_received := st.messages_received + 1,
                messages_stored := st.messages_stored + 1,
                consecutive_errors := 0 }
    else
      { st with messages_received := st.messages_received + 1,
                errors := st.errors + 1,
                consecutive_errors := st.consecutive_errors + 1 }
  { s with stats := { st with last_activity := some now },
           last_health_check := some now }

/-- The state updates `BaseCollector.start` performs before delegating to
`_start_collection`: status `STARTING`, fresh `start_time`/`last_activity`,
and `_is_healthy = True` — the only write of `True` to the flag outside
`__init__`. -/
def startOp (now : ℤ) (s : BCState) : BCState :=
  { s with status := .starting,
           stats := { s.stats with start_time := some now, last_activity := some now },
           is_healthy := true }

/-- `BaseCollector.handle_error`'s state effect: bumps `errors` and
`consecutive_errors`, leaves the health flag untouched. -/
def handleErrorOp (s : BCState) : BCState :=
  let st := s.stats
  let st := { st with errors := st.errors + 1, consecutive_errors := st.consecutive_errors + 1 }
  { s with stats := st }

/-- The operations a client can run on a `BaseCollector` between one
`start` and the next: recording messages, health checks (which mutate the
flag), and error handling. -/
inductive BCOp where
  | record (now : ℤ) (stored : Bool) : BCOp
  | healthCheck (now : ℤ) : BCOp
  | handleErr : BCOp
deriving DecidableEq

/-- Apply one operation to the collector state. -/
def applyOp : BCOp → BCState → BCState
  | .record now stored, s => record_message now stored s
  | .healthCheck now, s => (isHealthyCheck now s).2
  | .handleErr, s => handleErrorOp s

/-- Apply a sequence of operations left to right. -/
def applyOps (ops : List BCOp) (s : BCState) : BCState :=
  ops.foldl (fun s op => applyOp op s) s

/-- A realtime collector that has crossed the consecutive-error threshold
(11 consecutive errors) while its `_is_healthy` flag is still set. -/
def unhealthyExample : BCState :=
  { status := .running,
    stats := { messages_received := 11, messages_stored := 0, errors := 11,
               consecutive_errors := 11, start_time := some 0, last_activity := some 0 },
    last_health_check := some 0,
    is_healthy := true,
    realtime := true,
    health_check_interval := 30 }

end BaseColl

namespace SymbolMapping

theorem dget_map {α β : Type} (f : α → β) (l : List (String × α)) (k : String) :
    dget (l.map (fun p => (p.1, f p.2))) k = (dget l k).map f := by
  induction l with
  | nil => rfl
  | cons hd tl ih =>
      simp only [List.map, dget]
      by_cases h : k = hd.1 <;> simp [h, ih]

theorem dget_dput_self {α : Type} (l : List (String × α)) (k : String) (v : α) :
    dget (dput l k v) k = some v := by
  induction l with
  | nil => simp [dput, dget]
  | cons hd tl ih =>
      simp only [dput]
      by_cases h : k = hd.1 <;> simp [dget, h, ih]

end SymbolMapping

/-- C1: the spec's round-trip law `toStandard(E, toNative(E, S)) == S` fails
on the code: on Binance both `BTCUSDT` and `BTCGUSD` map to native
`BTCUSDT`, and the dict-comprehension reverse table keeps the last such key,
so the canonical symbol `BTCUSDT` round-trips to `BTCGUSD`, not to itself. -/
theorem C1_roundtrip_counterexample :
    SymbolMapping.get_exchange_symbols "binance" ["BTCUSDT"] = ["BTCUSDT"] ∧
    SymbolMapping.get_standard_symbol "binance" "BTCUSDT" = "BTCGUSD" ∧
    SymbolMapping.get_standard_symbol "binance"
        ((SymbolMapping.get_exchange_symbols "binance" ["BTCUSDT"]).headD "") ≠ "BTCUSDT" := by
  decide

/-- C1 (amended): for every canonical symbol S and exchange E the round trip
lands on a canonical symbol with the same native translation — translating
the round-tripped symbol forward again gives the same native symbol — but
the round trip returns S itself only when S is the last canonical symbol in
E's table mapping to that native symbol. -/
theorem C1_roundtrip_native_stable :
    ∀ e ∈ SymbolMapping.EXCHANGE_SYMBOLS.map Prod.fst,
      ∀ s ∈ SymbolMapping.STANDARD_SYMBOLS,
        SymbolMapping.get_standard_symbol e (SymbolMapping.toNative e s)
            ∈ SymbolMapping.STANDARD_SYMBOLS ∧
        SymbolMapping.toNative e
            (SymbolMapping.get_standard_symbol e (SymbolMapping.toNative e s))
          = SymbolMapping.toNative e s := by
  decide

/-- C1 witness: the amended round trip instantiated on Binance/`BTCUSDT`. -/
theorem C1_roundtrip_native_stable_witness :
    SymbolMapping.get_standard_symbol "binance" (SymbolMapping.toNative "binance" "BTCUSDT")
        ∈ SymbolMapping.STANDARD_SYMBOLS ∧
    SymbolMapping.toNative "binance"
        (SymbolMapping.get_standard_symbol "binance" (SymbolMapping.toNative "binance" "BTCUSDT"))
      = SymbolMapping.toNative "binance" "BTCUSDT" :=
  C1_roundtrip_native_stable "binance" (by decide) "BTCUSDT" (by decide)

/-- C7: a symbol with no entry in the forward or reverse table of an
exchange (in particular any symbol of an unknown exchange) passes through
both translations unchanged; both functions are total, so no exception is
possible. -/
theorem C7_unmapped_passthrough (e x : String)
    (hne : SymbolMapping.hasNoEntry e x = true) :
    SymbolMapping.get_exchange_symbols e [x] = [x] ∧
    SymbolMapping.get_standard_symbol e x = x := by
  have hrev : SymbolMapping.dget SymbolMapping.REVERSE_MAPPINGS e
      = (SymbolMapping.dget SymbolMapping.EXCHANGE_SYMBOLS e).map SymbolMapping.reverseDict :=
    SymbolMapping.dget_map SymbolMapping.reverseDict SymbolMapping.EXCHANGE_SYMBOLS e
  cases hfwd : SymbolMapping.dget SymbolMapping.EXCHANGE_SYMBOLS e with
  | none =>
      refine ⟨?_, ?_⟩
      · simp [SymbolMapping.get_exchange_symbols, hfwd]
      · simp [SymbolMapping.get_standard_symbol, hrev, hfwd]
  | some t =>
      unfold SymbolMapping.hasNoEntry at hne
      rw [hfwd, hrev] at hne
      rw [hfwd] at hne
      simp only [Option.map_some', Bool.and_eq_true, Option.isNone_iff_eq_none] at hne
      refine ⟨?_, ?_⟩
      · simp [SymbolMapping.get_exchange_symbols, hfwd, hne.1]
      · simp [SymbolMapping.get_standard_symbol, hrev, hfwd, hne.2]

/-- C7 witness: `ETHUSDT` is unmapped on Binance and passes through both
directions unchanged. -/
theorem C7_unmapped_passthrough_witness :
    SymbolMapping.get_exchange_symbols "binance" ["ETHUSDT"] = ["ETHUSDT"] ∧
    SymbolMapping.get_standard_symbol "binance" "ETHUSDT" = "ETHUSDT" :=
  C7_unmapped_passthrough "binance" "ETHUSDT" (by decide)

/-- C4: the claim that a successful recovery handler resets the attempt
counter to zero fails on the code: on a fresh handler with an
always-succeeding recovery handler for `coll_ConnectionError`,
`handle_error` reports recovery (`True`) but leaves the counter at the
incremented value 1, not 0. -/
theorem C4_counter_reset_counterexample :
    (ErrorPolicy.handle_error ErrorPolicy.exampleState "coll" "ConnectionError").1 = true ∧
    SymbolMapping.dget
        (ErrorPolicy.handle_error ErrorPolicy.exampleState "coll" "ConnectionError").2.error_counts
        "coll_ConnectionError" = some 1 ∧
    SymbolMapping.dget
        (ErrorPolicy.handle_error ErrorPolicy.exampleState "coll" "ConnectionError").2.error_counts
        "coll_ConnectionError" ≠ some 0 := by
  decide

/-- C4 (amended): when `should_retry` admits the incremented attempt count
and some recovery handler registered for the `(collector, errorClass)` key
reports success, `handle_error` returns `True`, but the stored attempt
counter for that key keeps its incremented value — it is never reset to
zero. -/
theorem C4_recovery_no_reset (st : ErrorPolicy.EHState) (collector errorType : String)
    (hretry : ErrorPolicy.should_retry st.cfg errorType
      ((SymbolMapping.dget st.error_counts (collector ++ "_" ++ errorType)).getD 0 + 1) = true)
    (hsucc : ((SymbolMapping.dget st.recovery_handlers
      (collector ++ "_" ++ errorType)).getD []).any id = true) :
    (ErrorPolicy.handle_error st collector errorType).1 = true ∧
    SymbolMapping.dget
        (ErrorPolicy.handle_error st collector errorType).2.error_counts
        (collector ++ "_" ++ errorType)
      = some ((SymbolMapping.dget st.error_counts (collector ++ "_" ++ errorType)).getD 0 + 1) := by
  constructor
  · simp [ErrorPolicy.handle_error, hretry, hsucc]
  · simp [ErrorPolicy.handle_error, hretry, SymbolMapping.dget_dput_self]

/-- C4 witness: the amended statement instantiated on the fresh example
state with a succeeding handler for `coll_ConnectionError`. -/
theorem C4_recovery_no_reset_witness :
    (ErrorPolicy.handle_error ErrorPolicy.exampleState "coll" "ConnectionError").1 = true ∧
    SymbolMapping.dget
        (ErrorPolicy.handle_error ErrorPolicy.exampleState "coll" "ConnectionError").2.error_counts
        ("coll" ++ "_" ++ "ConnectionError")
      = some ((SymbolMapping.dget ErrorPolicy.exampleState.error_counts
          ("coll" ++ "_" ++ "ConnectionError")).getD 0 + 1) :=
  C4_recovery_no_reset ErrorPolicy.exampleState "coll" "ConnectionError" (by decide) (by decide)

/-- C5: in the base handler any attempt count above `max_retries` is not
retried, and in the connection handler a connection-class error is retried
exactly up to `max_retries * 2` and never past it, so both classes stop
retrying past a fixed attempt count. -/
theorem C5_retry_ceiling (cfg : ErrorPolicy.EHConfig) (errorName : String) (attempt : Nat) :
    (attempt > cfg.max_retries → ErrorPolicy.should_retry cfg errorName attempt = false) ∧
    (errorName ∈ ErrorPolicy.connection_errors →
      (attempt ≤ cfg.max_retries * 2 →
        ErrorPolicy.conn_should_retry cfg errorName attempt = true) ∧
      (attempt > cfg.max_retries * 2 →
        ErrorPolicy.conn_should_retry cfg errorName attempt = false)) := by
  refine ⟨fun h => by simp [ErrorPolicy.should_retry, h], fun hmem => ⟨?_, ?_⟩⟩
  · intro h
    simp [ErrorPolicy.conn_should_retry, hmem, h]
  · intro h
    simp only [ErrorPolicy.conn_should_retry, if_pos hmem, decide_eq_false_iff_not]
    omega

/-- C5 witness: with the default configuration (`max_retries = 3`), a
generic error stops at attempt 4 while a `ConnectionError` is still retried
at attempt 6 and stops at attempt 7. -/
theorem C5_retry_ceiling_witness :
    ErrorPolicy.should_retry ErrorPolicy.defaultConfig "Exception" 4 = false ∧
    ErrorPolicy.conn_should_retry ErrorPolicy.defaultConfig "ConnectionError" 6 = true ∧
    ErrorPolicy.conn_should_retry ErrorPolicy.defaultConfig "ConnectionError" 7 = false :=
  ⟨(C5_retry_ceiling ErrorPolicy.defaultConfig "Exception" 4).1 (by decide),
   ((C5_retry_ceiling ErrorPolicy.defaultConfig "ConnectionError" 6).2 (by decide)).1 (by decide),
   ((C5_retry_ceiling ErrorPolicy.defaultConfig "ConnectionError" 7).2 (by decide)).2 (by decide)⟩

/-- C6: the claim that the jitter of every error class is drawn from a
fixed fractional range of the pre-jitter delay fails for the connection
class: its jitter range is the absolute interval [0.5, 2.0] seconds, so no
pair of fixed fractions reproduces it at both attempt 1 (pre-jitter delay
2s under the default configuration) and attempt 3 (8s). -/
theorem C6_fractional_jitter_counterexample :
    ErrorPolicy.conn_pre_delay ErrorPolicy.defaultConfig 1 = 2 ∧
    ErrorPolicy.conn_pre_delay ErrorPolicy.defaultConfig 3 = 8 ∧
    ¬ ∃ lo hi : ℚ,
        (ErrorPolicy.conn_jitter_lo
            = lo * ErrorPolicy.conn_pre_delay ErrorPolicy.defaultConfig 1 ∧
         ErrorPolicy.conn_jitter_hi
            = hi * ErrorPolicy.conn_pre_delay ErrorPolicy.defaultConfig 1) ∧
        (ErrorPolicy.conn_jitter_lo
            = lo * ErrorPolicy.conn_pre_delay ErrorPolicy.defaultConfig 3 ∧
         ErrorPolicy.conn_jitter_hi
            = hi * ErrorPolicy.conn_pre_delay ErrorPolicy.defaultConfig 3) := by
  have e1 : ErrorPolicy.conn_pre_delay ErrorPolicy.defaultConfig 1 = 2 := by
    norm_num [ErrorPolicy.conn_pre_delay, ErrorPolicy.defaultConfig, min_def]
  have e3 : ErrorPolicy.conn_pre_delay ErrorPolicy.defaultConfig 3 = 8 := by
    norm_num [ErrorPolicy.conn_pre_delay, ErrorPolicy.defaultConfig, min_def]
  refine ⟨e1, e3, ?_⟩
  rintro ⟨lo, hi, ⟨-, h2⟩, ⟨-, h4⟩⟩
  rw [e1] at h2
  rw [e3] at h4
  rw [ErrorPolicy.conn_jitter_hi] at h2 h4
  linarith

/-- C6 (amended): for both error classes the expected returned delay
(pre-jitter delay plus the mean jitter: a fraction of the delay for generic
errors, an absolute offset for connection errors) is non-decreasing in the
attempt number whenever the base delay is non-negative and the backoff
factor is at least 1, the caps acting through the `min`. -/
theorem C6_expected_backoff_monotone (cfg : ErrorPolicy.EHConfig)
    (hbase : 0 ≤ cfg.base_delay) (hfac : 1 ≤ cfg.backoff_factor)
    (a b : Nat) (hab : a ≤ b) :
    ErrorPolicy.expected_retry_delay cfg a ≤ ErrorPolicy.expected_retry_delay cfg b ∧
    ErrorPolicy.conn_expected_retry_delay cfg a
      ≤ ErrorPolicy.conn_expected_retry_delay cfg b := by
  have hpow : cfg.backoff_factor ^ (a - 1) ≤ cfg.backoff_factor ^ (b - 1) :=
    pow_le_pow_right₀ hfac (Nat.sub_le_sub_right hab 1)
  have hpre : ErrorPolicy.pre_delay cfg a ≤ ErrorPolicy.pre_delay cfg b := by
    unfold ErrorPolicy.pre_delay
    exact min_le_min (mul_le_mul_of_nonneg_left hpow hbase) le_rfl
  have hconn : ErrorPolicy.conn_pre_delay cfg a ≤ ErrorPolicy.conn_pre_delay cfg b := by
    unfold ErrorPolicy.conn_pre_delay
    refine min_le_min ?_ le_rfl
    have h2 : (0:ℚ) ≤ cfg.base_delay * 2 := by linarith
    exact mul_le_mul_of_nonneg_left hpow h2
  constructor
  · unfold ErrorPolicy.expected_retry_delay
    have hc : (0:ℚ) ≤ (ErrorPolicy.jitter_frac_lo + ErrorPolicy.jitter_frac_hi) / 2 := by
      rw [ErrorPolicy.jitter_frac_lo, ErrorPolicy.jitter_frac_hi]
      norm_num
    exact add_le_add hpre (mul_le_mul_of_nonneg_left hpre hc)
  · unfold ErrorPolicy.conn_expected_retry_delay
    exact add_le_add_right hconn _

/-- C6 witness: expected delays under the default configuration grow from
attempt 1 to attempt 3, in both classes. -/
theorem C6_expected_backoff_monotone_witness :
    ErrorPolicy.expected_retry_delay ErrorPolicy.defaultConfig 1
      ≤ ErrorPolicy.expected_retry_delay ErrorPolicy.defaultConfig 3 ∧
    ErrorPolicy.conn_expected_retry_delay ErrorPolicy.defaultConfig 1
      ≤ ErrorPolicy.conn_expected_retry_delay ErrorPolicy.defaultConfig 3 :=
  C6_expected_backoff_monotone ErrorPolicy.defaultConfig (by decide) (by decide) 1 3 (by decide)

/-- C3: the claim that a frame missing a required field increments the
error counter exactly once fails on the code: a ticker frame with a valid
price but no symbol is dropped by a bare `return`, emitting no event and
leaving the error counter unchanged (delta 0, not 1). -/
theorem C3_silent_drop_counterexample :
    BinanceAdapter.handle_ticker BinanceAdapter.tickerNoSymbol = ([], 0, 0) ∧
    (BinanceAdapter.handle_ticker BinanceAdapter.tickerNoSymbol).2.2 ≠ 1 := by
  decide

/-- C3 (amended): a ticker frame whose fields all parse but whose symbol is
missing/falsy or whose price is non-positive yields no event and leaves the
error counter unchanged (a silent drop); the counter is incremented —
exactly once per frame — only when some field fails numeric parsing. -/
theorem C3_required_field_drop (m : BinanceAdapter.TickerMsg) :
    (BinanceAdapter.exceptOk (BinanceAdapter.tickerFields m) = true →
      (BinanceAdapter.falsyStr m.s = true ∨ BinanceAdapter.tickerPrice m ≤ 0) →
      BinanceAdapter.handle_ticker m = ([], 0, 0)) ∧
    (BinanceAdapter.exceptOk (BinanceAdapter.tickerFields m) = false →
      BinanceAdapter.handle_ticker m = ([], 0, 1)) := by
  constructor
  · intro hok hdrop
    cases hfe : BinanceAdapter.tickerFields m with
    | error e =>
        rw [hfe] at hok
        exact absurd hok (by simp [BinanceAdapter.exceptOk])
    | ok f =>
        have hcond : (BinanceAdapter.falsyStr m.s || decide (f.price ≤ 0)) = true := by
          rcases hdrop with hs | hp
          · simp [hs]
          · unfold BinanceAdapter.tickerPrice at hp
            rw [hfe] at hp
            simp [hp]
        simp [BinanceAdapter.handle_ticker, hfe, hcond]
  · intro hbad
    cases hfe : BinanceAdapter.tickerFields m with
    | error e => simp [BinanceAdapter.handle_ticker, hfe]
    | ok f =>
        rw [hfe] at hbad
        exact absurd hbad (by simp [BinanceAdapter.exceptOk])

/-- C3 witness: the amended statement instantiated on the symbol-less
ticker frame (silent drop, error counter unchanged). -/
theorem C3_required_field_drop_witness :
    BinanceAdapter.handle_ticker BinanceAdapter.tickerNoSymbol = ([], 0, 0) :=
  (C3_required_field_drop BinanceAdapter.tickerNoSymbol).1 (by decide) (Or.inl (by decide))

/-- C9: a ticker frame with a symbol, a positive last price and a 24h
volume but absent bid/ask fields yields exactly two stored events — a
market-data event whose bid and ask are `None` and a volume-liquidity event
— and both carry the same 24h volume figure. -/
theorem C9_ticker_two_events (m : BinanceAdapter.TickerMsg) (f : BinanceAdapter.TickerFields)
    (hfe : BinanceAdapter.tickerFields m = .ok f)
    (hs : BinanceAdapter.falsyStr m.s = false)
    (hp : 0 < f.price) (hb : f.bid = 0) (ha : f.ask = 0) :
    BinanceAdapter.handle_ticker m =
      ([BinanceAdapter.Event.market
          ⟨m.s.getD "", f.price, f.vol24, none, none, some f.bid_size, some f.ask_size,
           BinanceAdapter.orNone f.high24, BinanceAdapter.orNone f.low24⟩,
        BinanceAdapter.Event.volume ⟨m.s.getD "", f.vol24, some f.quote_vol24⟩], 2, 0) := by
  have hcond : (BinanceAdapter.falsyStr m.s || decide (f.price ≤ 0)) = false := by
    simp only [hs, Bool.false_or, decide_eq_false_iff_not, not_le]
    exact hp
  simp [BinanceAdapter.handle_ticker, hfe, hcond, hb, ha, BinanceAdapter.orNone]

/-- C9 witness: the frame with price 50000 and volume 120 produces the two
events, bid/ask `None`, both carrying volume 120. -/
theorem C9_ticker_two_events_witness :
    BinanceAdapter.handle_ticker BinanceAdapter.tickerNoBidAsk =
      ([BinanceAdapter.Event.market
          ⟨"BTCUSDT", 50000, 120, none, none, some 0, some 0, none, none⟩,
        BinanceAdapter.Event.volume ⟨"BTCUSDT", 120, some 0⟩], 2, 0) := by
  rw [C9_ticker_two_events BinanceAdapter.tickerNoBidAsk
        ⟨50000, 120, 0, 0, 0, 0, 0, 0, 0⟩
        rfl (by decide) (by decide) (by decide) (by decide)]
  decide

/-- C8: the claim that the truncated snapshot is price-ordered fails on the
code: `_handle_depth` takes the first 20 levels in frame order without
sorting, so a frame with 21 ascending-price bid levels yields a snapshot
whose bids are not in descending price order. -/
theorem C8_no_sorting_counterexample :
    (BinanceAdapter.depthBids BinanceAdapter.depth21Msg).length = 21 ∧
    BinanceAdapter.bookBids (BinanceAdapter.handle_depth BinanceAdapter.depth21Msg).1
      = (BinanceAdapter.depthBids BinanceAdapter.depth21Msg).take 20 ∧
    BinanceAdapter.descByPrice
        (BinanceAdapter.bookBids (BinanceAdapter.handle_depth BinanceAdapter.depth21Msg).1)
      = false := by
  decide

/-- C8 (amended): a depth frame whose parsed bid and ask lists both exceed
20 levels yields exactly one snapshot whose sides are the first 20 parsed
levels in frame order (each of length exactly 20, a sublist of the parsed
input, so the frame's order is preserved but no sorting is applied), and
truncation is idempotent: taking 20 of an already-truncated side is a
no-op. -/
theorem C8_truncation_idempotent (m : BinanceAdapter.DepthMsg)
    (hb : 20 < (BinanceAdapter.depthBids m).length)
    (ha : 20 < (BinanceAdapter.depthAsks m).length) :
    BinanceAdapter.handle_depth m =
      ([BinanceAdapter.Event.book
          ⟨BinanceAdapter.depthSymbol m,
           (BinanceAdapter.depthBids m).take 20,
           (BinanceAdapter.depthAsks m).take 20⟩], 1, 0) ∧
    ((BinanceAdapter.depthBids m).take 20).length = 20 ∧
    ((BinanceAdapter.depthAsks m).take 20).length = 20 ∧
    ((BinanceAdapter.depthBids m).take 20).take 20 = (BinanceAdapter.depthBids m).take 20 ∧
    List.Sublist ((BinanceAdapter.depthBids m).take 20) (BinanceAdapter.depthBids m) ∧
    List.Sublist ((BinanceAdapter.depthAsks m).take 20) (BinanceAdapter.depthAsks m) := by
  have hbne : (BinanceAdapter.depthBids m).isEmpty = false := by
    cases hd : BinanceAdapter.depthBids m with
    | nil => rw [hd] at hb; simp at hb
    | cons x xs => rfl
  refine ⟨?_, ?_, ?_, ?_, ?_, ?_⟩
  · simp [BinanceAdapter.handle_depth, hbne]
  · rw [List.length_take]; omega
  · rw [List.length_take]; omega
  · rw [List.take_take, min_self]
  · exact List.take_sublist 20 _
  · exact List.take_sublist 20 _

/-- C8 witness: the amended statement instantiated on the 21-level frame. -/
theorem C8_truncation_idempotent_witness :
    BinanceAdapter.handle_depth BinanceAdapter.depth21Msg =
      ([BinanceAdapter.Event.book
          ⟨BinanceAdapter.depthSymbol BinanceAdapter.depth21Msg,
           (BinanceAdapter.depthBids BinanceAdapter.depth21Msg).take 20,
           (BinanceAdapter.depthAsks BinanceAdapter.depth21Msg).take 20⟩], 1, 0) ∧
    ((BinanceAdapter.depthBids BinanceAdapter.depth21Msg).take 20).length = 20 ∧
    ((BinanceAdapter.depthAsks BinanceAdapter.depth21Msg).take 20).length = 20 ∧
    ((BinanceAdapter.depthBids BinanceAdapter.depth21Msg).take 20).take 20
      = (BinanceAdapter.depthBids BinanceAdapter.depth21Msg).take 20 ∧
    List.Sublist ((BinanceAdapter.depthBids BinanceAdapter.depth21Msg).take 20)
      (BinanceAdapter.depthBids BinanceAdapter.depth21Msg) ∧
    List.Sublist ((BinanceAdapter.depthAsks BinanceAdapter.depth21Msg).take 20)
      (BinanceAdapter.depthAsks BinanceAdapter.depth21Msg) :=
  C8_truncation_idempotent BinanceAdapter.depth21Msg (by decide) (by decide)

/-- C2: the collect loop guard `time.time() - start < duration_seconds` is
already false at the first evaluation when the duration is 0 (every frame
arrives at or after the start time), so `collect(duration_seconds=0)`
returns immediately without handling a single frame instead of running
until explicitly stopped. -/
theorem C2_duration_zero_stops_immediately (startT : ℤ)
    (frames : List (ℤ × BinanceAdapter.TickerMsg))
    (hts : ∀ p ∈ frames, startT ≤ p.1) :
    BinanceAdapter.collectProcessed startT 0 frames = [] := by
  cases frames with
  | nil => rfl
  | cons hd tl =>
      obtain ⟨t, m⟩ := hd
      have h1 : startT ≤ t := hts (t, m) (by simp)
      simp only [BinanceAdapter.collectProcessed]
      rw [if_neg (by omega : ¬ t - startT < 0)]

/-- C2 witness: with duration 0 a frame arriving 5 seconds after start is
never handled. -/
theorem C2_duration_zero_stops_immediately_witness :
    BinanceAdapter.collectProcessed 0 0 [(5, BinanceAdapter.tickerNoBidAsk)] = [] :=
  C2_duration_zero_stops_immediately 0 [(5, BinanceAdapter.tickerNoBidAsk)] (by decide)

namespace BaseColl

theorem isHealthyCheck_snd_flag (now : ℤ) (s : BCState) :
    ((isHealthyCheck now s).2).is_healthy = (isHealthyCheck now s).1 := rfl

theorem isHealthyCheck_false_of_flag (now : ℤ) (s : BCState)
    (h : s.is_healthy = false) : (isHealthyCheck now s).1 = false := by
  unfold isHealthyCheck
  cases hl : s.last_health_check <;>
    cases ha : s.stats.last_activity <;>
      simp [h, ite_self]

theorem applyOp_flag_false (op : BCOp) (s : BCState) (h : s.is_healthy = false) :
    (applyOp op s).is_healthy = false := by
  cases op with
  | record now stored => cases stored <;> simp [applyOp, record_message, h]
  | healthCheck now =>
      show ((isHealthyCheck now s).2).is_healthy = false
      rw [isHealthyCheck_snd_flag]
      exact isHealthyCheck_false_of_flag now s h
  | handleErr => simp [applyOp, handleErrorOp, h]

theorem applyOps_flag_false (ops : List BCOp) (s : BCState) (h : s.is_healthy = false) :
    (applyOps ops s).is_healthy = false := by
  induction ops generalizing s with
  | nil => exact h
  | cons op rest ih => exact ih (applyOp op s) (applyOp_flag_false op s h)

end BaseColl

/-- C10: the health flag is latching: once `is_healthy()` has returned
`False`, every later call returns `False` across any sequence of
`record_message` (including `stored=True`, which resets the
consecutive-error count), further health checks and `handle_error` calls,
and only `start()` sets the flag back to `True`. -/
theorem C10_health_latching (s : BaseColl.BCState) (n0 : ℤ)
    (hfail : (BaseColl.isHealthyCheck n0 s).1 = false)
    (ops : List BaseColl.BCOp) (now m : ℤ) :
    (BaseColl.isHealthyCheck now
        (BaseColl.applyOps ops (BaseColl.isHealthyCheck n0 s).2)).1 = false ∧
    (BaseColl.startOp m
        (BaseColl.applyOps ops (BaseColl.isHealthyCheck n0 s).2)).is_healthy = true := by
  have h2 : ((BaseColl.isHealthyCheck n0 s).2).is_healthy = false := by
    rw [BaseColl.isHealthyCheck_snd_flag]
    exact hfail
  have h3 := BaseColl.applyOps_flag_false ops _ h2
  exact ⟨BaseColl.isHealthyCheck_false_of_flag now _ h3, rfl⟩

/-- C10 witness: a collector with 11 consecutive errors fails its health
check at time 1; after a successful `record_message` at time 2 (which
resets the consecutive-error count) the check at time 3 still returns
`False`, while `start` at time 4 sets the flag back to `True`. -/
theorem C10_health_latching_witness :
    (BaseColl.isHealthyCheck 3
        (BaseColl.applyOps [BaseColl.BCOp.record 2 true]
          (BaseColl.isHealthyCheck 1 BaseColl.unhealthyExample).2)).1 = false ∧
    (BaseColl.startOp 4
        (BaseColl.applyOps [BaseColl.BCOp.record 2 true]
          (BaseColl.isHealthyCheck 1 BaseColl.unhealthyExample).2)).is_healthy = true :=
  C10_health_latching BaseColl.unhealthyExample 1 (by decide) [BaseColl.BCOp.record 2 true] 3 4
